import Mathlib

/-
Verification of the AP-CoreTypes repository.

Part I embeds `ara::core::Optional<T>` from src/include/ara/core/optional.h.
The C++ class wraps a private member `std::optional<T> o_`; we model the
wrapped member as Lean's `Option T` and each member function as written in
the source.

Part II models the error-handling triad (ErrorDomain / ErrorCode /
Exception) described in spec.md sections 3 and 4.  The triad's source is
not present under src/ (only the build file's reference to
error_domain_test.cpp remains), so the definitions are modelled from the
specification's words and carry doc comments saying so.
-/

namespace ara.core

/-- The class template `ara::core::Optional<T>` (optional.h line 22): a
single private member `std::optional<T> o_` (line 1081), modelled as
`Option T`. -/
structure Optional (T : Type) where
  o_ : Option T
deriving DecidableEq

/-- The default constructor `Optional()` (optional.h lines 32-35): sets
`o_ = std::optional<T>()`, i.e. an empty optional. -/
def Optional.mkDefault (T : Type) : Optional T :=
  ⟨Option.none⟩

/-- The constructor `Optional(std::nullopt_t)` (optional.h lines 41-44):
sets `o_ = std::optional<T>(std::nullopt)`, i.e. an empty optional. -/
def Optional.mkNullopt (T : Type) : Optional T :=
  ⟨Option.none⟩

/-- The copy constructor (optional.h lines 55-58): copies the wrapped
member, `o_ = std::optional<T>(other.o_)`. -/
def Optional.copy {T : Type} (other : Optional T) : Optional T :=
  ⟨other.o_⟩

/-- The converting value constructor `Optional(U&& value)` (optional.h
lines 144-148).  Its body is only the comment `// todo`: the argument is
never stored, so the member `o_` is default-constructed and stays empty.
The doc comment on it (lines 135-137) promises an engaged optional. -/
def Optional.fromValue {T : Type} (_value : T) : Optional T :=
  ⟨Option.none⟩

/-- Spec-side definition for the refinement comparison (C1): the converting
value constructor of `std::optional<T>` per the C++ standard produces an
engaged optional holding the forwarded value. -/
def stdOptionalFromValue {T : Type} (value : T) : Option T :=
  Option.some value

/-- `has_value()` (optional.h lines 330-333): returns `o_.has_value()`. -/
def Optional.has_value {T : Type} (o : Optional T) : Bool :=
  o.o_.isSome

/-- The explicit `operator bool()` (optional.h lines 319-322): returns
`has_value()`. -/
def Optional.toBool {T : Type} (o : Optional T) : Bool :=
  o.has_value

/-- `value_or(default_value)` (optional.h lines 393-397): returns
`o_.value_or(default_value)`. -/
def Optional.value_or {T : Type} (o : Optional T) (default_value : T) : T :=
  o.o_.getD default_value

/-- `reset()` (optional.h lines 428-431): `o_.reset()` leaves the wrapped
optional empty. -/
def Optional.reset {T : Type} (_o : Optional T) : Optional T :=
  ⟨Option.none⟩

/-- `emplace(args...)` (optional.h lines 443-447): `o_.emplace(...)` makes
the wrapped optional hold the value constructed from the arguments. -/
def Optional.emplace {T : Type} (_o : Optional T) (v : T) : Optional T :=
  ⟨Option.some v⟩

/-- The member `swap(Optional& other)` (optional.h lines 419-422):
`o_.swap(other.o_)` exchanges the two wrapped optionals.  Modelled as
returning the pair (new this, new other). -/
def Optional.swap {T : Type} (a b : Optional T) : Optional T × Optional T :=
  (⟨b.o_⟩, ⟨a.o_⟩)

/-- The free function `ara::core::swap(lhs, rhs)` (optional.h lines
1094-1098): delegates to `lhs.swap(rhs)`. -/
def swap {T : Type} (lhs rhs : Optional T) : Optional T × Optional T :=
  Optional.swap lhs rhs

/-- `operator==(const Optional<X>&, const Optional<Y>&)` (optional.h lines
479-483): returns `lhs.o_ == rhs.o_`. -/
def Optional.beq {T : Type} [BEq T] (lhs rhs : Optional T) : Bool :=
  lhs.o_ == rhs.o_

/-- `operator==(const Optional<X>&, std::nullopt_t)` (optional.h lines
603-607): returns `opt.o_ == std::nullopt`, i.e. true exactly when the
wrapped optional is empty. -/
def Optional.eqNullopt {T : Type} (opt : Optional T) : Bool :=
  opt.o_.isNone

/-- `make_optional(X&& value)` (optional.h lines 1043-1047): returns
`Optional<std::decay_t<X>>` built by the converting value constructor, so
it forwards to `Optional.fromValue`. -/
def make_optional {T : Type} (value : T) : Optional T :=
  Optional.fromValue value

/-- Modelled from the spec: the class `ErrorDomain` is missing from src/.
Per spec.md section 3, a domain has a 64-bit numeric `id` (fixed at
construction), a short human-readable `name`, and a per-domain mapping
from numeric error values to messages; per section 4.1 the mapping is an
enumerated table plus a defined fallback string for unenumerated values. -/
structure ErrorDomain where
  id : Nat
  name : String
  messageTable : List (Int × String)
  defaultMessage : String
deriving DecidableEq

/-- Modelled from the spec: lookup of an error value in a domain's
enumerated message table (spec.md section 4.1: "a pure function over its
own fixed enumeration plus a default arm for unrecognized values"). -/
def lookupMsg : List (Int × String) → Int → Option String
  | [], _ => Option.none
  | (k, s) :: rest, v => if k == v then Option.some s else lookupMsg rest v

/-- Modelled from the spec: `ErrorDomain::Name()` is missing from src/.
Per spec.md section 4.1 it is a constant, side-effect-free lookup of the
domain's label. -/
def ErrorDomain.Name (d : ErrorDomain) : String :=
  d.name

/-- Modelled from the spec: `ErrorDomain::Message(errorValue)` is missing
from src/.  Per spec.md sections 3 and 4.1 it is total over the full range
of the storage type: the enumerated table is consulted and any unknown
value falls back to the domain's default message, never failing. -/
def ErrorDomain.Message (d : ErrorDomain) (v : Int) : String :=
  match lookupMsg d.messageTable v with
  | Option.some s => s
  | Option.none => d.defaultMessage

/-- Modelled from the spec: the class `ErrorCode` is missing from src/.
Per spec.md section 3 it binds an integer `value` to the defining
`ErrorDomain` plus an opaque integer-sized `supportData` tag (defaulted to
zero). -/
structure ErrorCode where
  value : Int
  domain : ErrorDomain
  supportData : Int
deriving DecidableEq

/-- Modelled from the spec: the accessor `ErrorCode::Value()`. -/
def ErrorCode.Value (ec : ErrorCode) : Int :=
  ec.value

/-- Modelled from the spec: the accessor `ErrorCode::Domain()`, a
non-owning reference to the defining domain. -/
def ErrorCode.Domain (ec : ErrorCode) : ErrorDomain :=
  ec.domain

/-- Modelled from the spec: the accessor `ErrorCode::SupportData()`. -/
def ErrorCode.SupportData (ec : ErrorCode) : Int :=
  ec.supportData

/-- Modelled from the spec: `ErrorCode::Message()` delegates to
`Domain().Message(Value())` (spec.md section 3). -/
def ErrorCode.Message (ec : ErrorCode) : String :=
  ec.domain.Message ec.value

/-- Modelled from the spec: `ErrorCode` equality is missing from src/.
Per spec.md section 4.2, `a == b` iff `a.Value() == b.Value() &&
a.Domain().id == b.Domain().id`; `SupportData` is excluded. -/
def ErrorCode.beq (a b : ErrorCode) : Bool :=
  a.value == b.value && a.domain.id == b.domain.id

/-- Modelled from the spec: two domains are the "same domain" if and only
if their `id`s are equal (spec.md section 3, ErrorDomain invariant). -/
def sameDomain (d1 d2 : ErrorDomain) : Bool :=
  d1.id == d2.id

/-- Modelled from the spec: the class `Exception` is missing from src/.
Per spec.md section 3 it carries exactly one `ErrorCode` by value, fixed
at construction. -/
structure Exception where
  error : ErrorCode
deriving DecidableEq

/-- Modelled from the spec: the accessor `Exception::Error()` returns the
carried `ErrorCode` unmodified. -/
def Exception.Error (e : Exception) : ErrorCode :=
  e.error

/-- Modelled from the spec: raising an `Exception` built from an
`ErrorCode`; the host language's error channel is modelled by `Except`. -/
def raiseError (ec : ErrorCode) : Except Exception Unit :=
  Except.error ⟨ec⟩

/-- Modelled from the spec: re-throwing a caught `Exception` propagates
the same carrier unmodified (spec.md section 4.3). -/
def rethrow (e : Exception) : Except Exception Unit :=
  Except.error e

/-- Modelled from the spec: catching at a boundary retrieves the original
`ErrorCode` via `Error()` (spec.md section 6). -/
def catchError : Except Exception Unit → Option ErrorCode
  | Except.error e => Option.some e.Error
  | Except.ok _ => Option.none

/-- Modelled from the spec: the operations of the triad that touch a
domain during its lifetime (spec.md sections 4 and 5). -/
inductive TriadOp where
  | opName : TriadOp
  | opMessage : Int → TriadOp
  | opMkCode : Int → Int → TriadOp
  | opEq : ErrorCode → ErrorCode → TriadOp
  | opThrow : ErrorCode → TriadOp
deriving DecidableEq

/-- Modelled from the spec: the observable output of one triad
operation. -/
inductive TriadOut where
  | str : String → TriadOut
  | code : ErrorCode → TriadOut
  | flag : Bool → TriadOut
deriving DecidableEq

/-- Modelled from the spec: executing one operation against a live domain.
Per spec.md sections 4.1 and 5 every operation is read-only on the domain
(immutable after construction), so each returns the domain alongside its
output. -/
def runOp (d : ErrorDomain) : TriadOp → ErrorDomain × TriadOut
  | TriadOp.opName => (d, TriadOut.str d.Name)
  | TriadOp.opMessage v => (d, TriadOut.str (d.Message v))
  | TriadOp.opMkCode v s => (d, TriadOut.code (ErrorCode.mk v d s))
  | TriadOp.opEq a b => (d, TriadOut.flag (ErrorCode.beq a b))
  | TriadOp.opThrow ec => (d, TriadOut.code (Exception.Error (Exception.mk ec)))

/-- Modelled from the spec: a sequence of triad operations interleaved
during the domain's lifetime, returning the domain state afterwards. -/
def runOps (d : ErrorDomain) : List TriadOp → ErrorDomain
  | [] => d
  | op :: rest => runOps (runOp d op).1 rest

/-- An example domain used to instantiate theorems with hypotheses. -/
def D1ex : ErrorDomain :=
  ⟨1, "DomainOne", [(0, "ok")], "unknown error"⟩

/-- A second example domain, with a different id. -/
def D2ex : ErrorDomain :=
  ⟨2, "DomainTwo", [], "unknown error"⟩

theorem lookupMsg_mem {t : List (Int × String)} {v : Int} {s : String}
    (h : lookupMsg t v = Option.some s) : ∃ p ∈ t, p.2 = s := by
  induction t with
  | nil => simp [lookupMsg] at h
  | cons hd rest ih =>
    obtain ⟨k, m⟩ := hd
    by_cases hk : k == v
    · refine ⟨(k, m), List.mem_cons_self _ _, ?_⟩
      simp [lookupMsg, hk] at h
      exact h
    · simp [lookupMsg, hk] at h
      obtain ⟨p, hp, hps⟩ := ih h
      exact ⟨p, List.mem_cons_of_mem _ hp, hps⟩

theorem runOp_fst (d : ErrorDomain) (op : TriadOp) : (runOp d op).1 = d := by
  cases op <;> rfl

theorem runOps_eq (d : ErrorDomain) (ops : List TriadOp) : runOps d ops = d := by
  induction ops with
  | nil => rfl
  | cons op rest ih => simpa [runOps, runOp_fst] using ih

/-- C1: the claim that `ara::core::Optional<T>` is a behavioral clone of
`std::optional<T>` fails at the converting value constructor: the code
(optional.h lines 144-148, body `// todo`) leaves the optional disengaged,
while `std::optional<int>(5)` is engaged and holds 5.  The repository's
own test (`Optional<int> o4(5); CHECK(o4 != nullopt)`) and the
constructor's own doc comment expect the engaged behavior, so the code is
the slip. -/
theorem C1_value_ctor_diverges :
    (Optional.fromValue (5 : Int)).has_value = false ∧
    (stdOptionalFromValue (5 : Int)).isSome = true ∧
    (Optional.fromValue (5 : Int)).o_ ≠ stdOptionalFromValue (5 : Int) :=
  ⟨rfl, rfl, by decide⟩

/-- C2: `ErrorCode` equality holds iff values and domain ids both match;
`SupportData` never affects it; equality is reflexive; and codes from
domains with different ids are unequal. -/
theorem C2_errorcode_equality :
    (∀ a b : ErrorCode,
      ErrorCode.beq a b = true ↔ (a.Value = b.Value ∧ a.Domain.id = b.Domain.id)) ∧
    (∀ (v : Int) (d : ErrorDomain) (s1 s2 : Int),
      ErrorCode.beq (ErrorCode.mk v d s1) (ErrorCode.mk v d s2) = true) ∧
    (∀ (v : Int) (d : ErrorDomain) (s : Int),
      ErrorCode.beq (ErrorCode.mk v d s) (ErrorCode.mk v d s) = true) ∧
    (∀ (d1 d2 : ErrorDomain) (s1 s2 : Int), d1.id ≠ d2.id →
      ErrorCode.beq (ErrorCode.mk 5 d1 s1) (ErrorCode.mk 5 d2 s2) = false) := by
  refine ⟨?_, ?_, ?_, ?_⟩
  · intro a b
    simp [ErrorCode.beq, ErrorCode.Value, ErrorCode.Domain]
  · intro v d s1 s2
    simp [ErrorCode.beq]
  · intro v d s
    simp [ErrorCode.beq]
  · intro d1 d2 s1 s2 h
    simp [ErrorCode.beq]
    exact h

/-- C2 witness: instantiated at the two example domains with support data
1 and 2. -/
theorem C2_errorcode_equality_witness :
    D1ex.id ≠ D2ex.id ∧
    ErrorCode.beq (ErrorCode.mk 5 D1ex 1) (ErrorCode.mk 5 D2ex 2) = false :=
  ⟨by decide, C2_errorcode_equality.2.2.2 D1ex D2ex 1 2 (by decide)⟩

/-- C3: for every domain whose enumerated messages and fallback are
non-empty strings, `Message` returns a non-empty string for every integer
value, enumerated or not (it is a total Lean function, so it cannot trap),
and `ErrorCode::Message()` delegates to it and therefore never fails. -/
theorem C3_message_total (d : ErrorDomain) (v : Int) (s : Int)
    (hd : d.defaultMessage ≠ "")
    (ht : ∀ p ∈ d.messageTable, p.2 ≠ "") :
    d.Message v ≠ "" ∧ (ErrorCode.mk v d s).Message = d.Message v := by
  refine ⟨?_, rfl⟩
  unfold ErrorDomain.Message
  cases hm : lookupMsg d.messageTable v with
  | none => exact hd
  | some msg =>
    obtain ⟨p, hp, hps⟩ := lookupMsg_mem hm
    simpa [hps] using ht p hp

/-- C3 witness: the example domain at the unenumerated value 99. -/
theorem C3_message_total_witness :
    (D1ex.defaultMessage ≠ "" ∧ (∀ p ∈ D1ex.messageTable, p.2 ≠ "")) ∧
    (D1ex.Message 99 ≠ "" ∧ (ErrorCode.mk 99 D1ex 0).Message = D1ex.Message 99) :=
  ⟨⟨by decide, by decide⟩, C3_message_total D1ex 99 0 (by decide) (by decide)⟩

/-- C4: building an `Exception` from `ErrorCode(v, D, s)`, throwing it and
catching it yields the original code, with `Value() = v`,
`Domain().id = D.id` and `SupportData() = s`; re-throwing any exception
leaves the carried code unchanged. -/
theorem C4_exception_roundtrip :
    ∀ (v : Int) (d : ErrorDomain) (s : Int),
      catchError (raiseError (ErrorCode.mk v d s)) = Option.some (ErrorCode.mk v d s) ∧
      (Exception.Error (Exception.mk (ErrorCode.mk v d s))).Value = v ∧
      (Exception.Error (Exception.mk (ErrorCode.mk v d s))).Domain.id = d.id ∧
      (Exception.Error (Exception.mk (ErrorCode.mk v d s))).SupportData = s ∧
      (∀ e : Exception, catchError (rethrow e) = Option.some (Exception.Error e)) := by
  intro v d s
  exact ⟨rfl, rfl, rfl, rfl, fun _ => rfl⟩

/-- C5: no interleaving of triad operations changes a domain's id, and two
domains are the same domain exactly when their ids are equal. -/
theorem C5_id_immutable :
    (∀ (d : ErrorDomain) (ops : List TriadOp), (runOps d ops).id = d.id) ∧
    (∀ d1 d2 : ErrorDomain, sameDomain d1 d2 = true ↔ d1.id = d2.id) := by
  constructor
  · intro d ops
    rw [runOps_eq]
  · intro d1 d2
    simp [sameDomain]

/-- C5 witness: the example domain is the same domain as itself after a
run of operations. -/
theorem C5_id_immutable_witness :
    sameDomain (runOps D1ex [TriadOp.opName, TriadOp.opMessage 3]) D1ex = true :=
  (C5_id_immutable.2 (runOps D1ex [TriadOp.opName, TriadOp.opMessage 3]) D1ex).mpr
    (C5_id_immutable.1 D1ex [TriadOp.opName, TriadOp.opMessage 3])

/-- C6: `Name()` is deterministic across the domain's lifetime — after any
two interleavings of triad operations it returns the same string — and
every single operation is side-effect-free on the domain. -/
theorem C6_name_deterministic :
    (∀ (d : ErrorDomain) (ops1 ops2 : List TriadOp),
      (runOps d ops1).Name = (runOps d ops2).Name) ∧
    (∀ (d : ErrorDomain) (op : TriadOp), (runOp d op).1 = d) := by
  constructor
  · intro d ops1 ops2
    rw [runOps_eq, runOps_eq]
  · exact runOp_fst

/-- C8: the converting value constructor (optional.h lines 144-148, empty
body) discards its argument and yields a disengaged optional, and
`make_optional` (lines 1043-1047) forwards to it and does the same. -/
theorem C8_value_ctor_discards :
    ∀ (T : Type) (v : T),
      (Optional.fromValue v).has_value = false ∧
      (make_optional v).has_value = false := by
  intro T v
  exact ⟨rfl, rfl⟩

/-- C9: a default-constructed `Optional` and one constructed from
`nullopt` contain no value: `has_value()` and `operator bool` are false
and comparison with `nullopt` via `operator==` is true. -/
theorem C9_empty_construction :
    ∀ T : Type,
      (Optional.mkDefault T).has_value = false ∧
      (Optional.mkNullopt T).has_value = false ∧
      (Optional.mkDefault T).toBool = false ∧
      (Optional.mkNullopt T).toBool = false ∧
      (Optional.mkDefault T).eqNullopt = true ∧
      (Optional.mkNullopt T).eqNullopt = true := by
  intro T
  exact ⟨rfl, rfl, rfl, rfl, rfl, rfl⟩

/-- C10: after `swap(a, b)` the first operand holds exactly b's prior
state and the second holds a's; swapping twice restores both operands; and
the free `ara::core::swap` agrees with the member `swap`. -/
theorem C10_swap_exchanges :
    ∀ (T : Type) (a b : Optional T),
      (swap a b).1 = b ∧
      (swap a b).2 = a ∧
      swap (swap a b).1 (swap a b).2 = (a, b) ∧
      swap a b = Optional.swap a b := by
  intro T a b
  exact ⟨rfl, rfl, rfl, rfl⟩

end ara.core
